import Mathlib

/-!
Shallow embedding of `src/spotify2youtube.py` (Spotify to YouTube Music
playlist transfer tool) together with proofs about the claims of its
specification.

Conventions of the embedding:
- Python `float` durations and thresholds are modelled as exact rationals.
- Python dictionaries coming from the external services are modelled as
  structures with `Option` fields: `none` models an absent key; reading a
  field with `dict.get(key, default)` becomes `Option.getD`, while a direct
  subscript `dict[key]` on a possibly absent key is modelled in the
  `Except Unit` monad (a `KeyError` or `IndexError` escaping the function
  is `Except.error ()`).
- External collaborators (the YT Music search call, the per-batch add
  call, `datetime.fromisoformat`) are passed in as function parameters.
-/

deriving instance DecidableEq for Except

namespace Spotify2Youtube

/-! ## Python string primitives used by the script -/

/-- The whitespace characters stripped by the Python method `str.strip()`
(restricted to the ASCII range, which is all the script relies on). -/
def isPySpace (c : Char) : Bool :=
  c == ' ' || c == '\t' || c == '\n' || c == '\r' || c == '\x0b' || c == '\x0c'

/-- Python `str.strip()`: drop leading and trailing whitespace. -/
def pyStrip (s : String) : String :=
  String.mk (((s.data.dropWhile isPySpace).reverse.dropWhile isPySpace).reverse)

/-- Python `str.lower()` (ASCII case folding, which covers every string the
script lowercases). -/
def pyLower (s : String) : String :=
  String.mk (s.data.map Char.toLower)

/-- Numeric value of a list of decimal digit characters. -/
def digitsVal (ds : List Char) : Nat :=
  ds.foldl (fun a c => 10 * a + (c.toNat - 48)) 0

/-- Value of Python `float("ip.fp")` for a decimal literal made of an
integer digit part `ip` and a fractional digit part `fp` (exact, as a
rational). -/
def decimalVal (ip fp : List Char) : ℚ :=
  if fp = [] then (digitsVal ip : ℚ)
  else (digitsVal ip : ℚ) + (digitsVal fp : ℚ) / (10 : ℚ) ^ fp.length

/-- Model of Python `int(s)` on a string: strip whitespace, then an
optional sign followed by one or more decimal digits; anything else raises
`ValueError`, modelled as `none`. -/
def pyIntDigits (ds : List Char) : Option Int :=
  if ds = [] then none
  else if ds.all Char.isDigit then some (digitsVal ds : Int)
  else none

/-- Python `int(s)` for strings (the `ValueError` outcome is `none`). -/
def pyInt (s : String) : Option Int :=
  match (s.data.dropWhile isPySpace).reverse.dropWhile isPySpace |>.reverse with
  | [] => none
  | '+' :: ds => pyIntDigits ds
  | '-' :: ds => (pyIntDigits ds).map Int.neg
  | ds => pyIntDigits ds

/-! ## VarianceSpec parser (`parse_variance`, lines 196-224) -/

/-- The variance mode strings used by the script: `'seconds'` or
`'percent'`. -/
inductive Mode where
  | seconds
  | percent
deriving DecidableEq

/-- The suffix alternatives of the regex in `parse_variance`, line 206:
`(s|sec|secs|second|seconds|%|percent|perc)`. -/
def varianceSuffixes : List String :=
  ["s", "sec", "secs", "second", "seconds", "%", "percent", "perc"]

/-- `re.fullmatch` of the pattern
`(\d+(?:\.\d+)?)(s|sec|secs|second|seconds|%|percent|perc)?` against a
string: on success, the numeric value of group 1 and the matched optional
suffix of group 2. The suffix alternatives contain neither digits nor a
dot, so the greedy match is deterministic: take the maximal digit prefix,
then an optional dot plus a maximal nonempty digit run, and the remainder
must be empty or exactly one suffix. -/
def varianceFullmatch (s : String) : Option (ℚ × Option String) :=
  let cs := s.data
  let ip := cs.takeWhile Char.isDigit
  let r1 := cs.dropWhile Char.isDigit
  if ip = [] then none
  else
    match r1 with
    | '.' :: r2 =>
      let fp := r2.takeWhile Char.isDigit
      let r3 := r2.dropWhile Char.isDigit
      if fp = [] then none
      else if r3 = [] then some (decimalVal ip fp, none)
      else if String.mk r3 ∈ varianceSuffixes then
        some (decimalVal ip fp, some (String.mk r3))
      else none
    | _ =>
      if r1 = [] then some (decimalVal ip [], none)
      else if String.mk r1 ∈ varianceSuffixes then
        some (decimalVal ip [], some (String.mk r1))
      else none

/-- `parse_variance` (lines 196-224). `none` input models Python `None`;
the empty string is also falsy for the guard `if not value`. The
`float(num_str)` call on a string matched by `\d+(\.\d+)?` cannot raise,
so the `try` at line 212 is modelled by `decimalVal` directly. -/
def parse_variance (value : Option String) : Option ℚ × Mode :=
  match value with
  | none => (none, Mode.seconds)
  | some v =>
    if v = "" then (none, Mode.seconds)
    else
      match varianceFullmatch (pyLower (pyStrip v)) with
      | none => (none, Mode.seconds)
      | some (amount, suffixOpt) =>
        match suffixOpt with
        | none => (some amount, Mode.seconds)
        | some suffix =>
          if suffix ∈ ["%", "percent", "perc"] then (some amount, Mode.percent)
          else (some amount, Mode.seconds)

/-! ## Duration comparator (`main`, lines 447-508) -/

/-- Outcome of one duration comparison in the orchestrator loop: the track
is filed into `duration_skipped` (with the reason string of lines 454 and
465), filed into `duration_mismatches` (lines 501-508), or left alone. -/
inductive DurationOutcome where
  | skipped (reason : String)
  | mismatch (spotify_duration_sec yt_duration_sec diff_sec : ℚ)
  | agree
deriving DecidableEq

/-- Discriminator: is the outcome a mismatch? -/
def DurationOutcome.isMismatch : DurationOutcome → Bool
  | .mismatch _ _ _ => true
  | _ => false

/-- The duration comparison of `main`, lines 450-508, for a present
variance amount. `spotify_duration_ms` is the value after `or 0`
(line 437), so the guard `if not spotify_duration_ms` is `= 0`;
`yt_duration_sec` is `track_info.get('duration_seconds')`. -/
def evaluateDuration (variance_amount : ℚ) (variance_mode : Mode)
    (spotify_duration_ms : ℚ) (yt_duration_sec : Option ℚ) : DurationOutcome :=
  if spotify_duration_ms = 0 then DurationOutcome.skipped "missing Spotify duration"
  else
    match yt_duration_sec with
    | none => DurationOutcome.skipped "missing YouTube duration"
    | some yt =>
      let spotify_duration_sec := spotify_duration_ms / 1000
      let diff_sec := |spotify_duration_sec - yt|
      let is_mismatch : Bool :=
        match variance_mode with
        | Mode.seconds => if diff_sec > variance_amount then true else false
        | Mode.percent =>
          if spotify_duration_sec > 0 then
            if diff_sec / spotify_duration_sec * 100 > variance_amount then true
            else false
          else false
      if is_mismatch then DurationOutcome.mismatch spotify_duration_sec yt diff_sec
      else DurationOutcome.agree

/-! ## Track matcher (`search_youtube_music_track`, lines 164-193) -/

/-- One entry of the `artists` list of a YT Music search result: a
dictionary that may lack the `name` key. -/
structure YTArtist where
  name : Option String
deriving DecidableEq

/-- One dictionary of the list returned by `ytmusic.search`. Every field
models a key that may be absent. `videoId` is read with a direct
subscript (line 188), so an absent `videoId` on the selected result raises
`KeyError`. -/
structure SearchResult where
  resultType : Option String
  videoId : Option String
  title : Option String
  artists : Option (List YTArtist)
  duration : Option String
deriving DecidableEq

/-- The dictionary returned by `search_youtube_music_track` on a match
(lines 187-192). -/
structure TrackInfo where
  videoId : String
  title : String
  artist : String
  duration_seconds : Option Int
deriving DecidableEq

/-- Python `str.split(sep)` for a one-character separator, on character
lists: split at every separator occurrence, keeping empty parts. -/
def pySplitAux (sep : Char) : List Char → List Char → List (List Char)
  | [], acc => [acc.reverse]
  | c :: rest, acc =>
    if c = sep then acc.reverse :: pySplitAux sep rest []
    else pySplitAux sep rest (c :: acc)

/-- Python `s.split(sep)` for a one-character separator. -/
def pySplit (sep : Char) (s : String) : List String :=
  (pySplitAux sep s.data []).map String.mk

/-- The comprehension `[int(p) for p in duration_text.split(':')]`: the
first `ValueError` aborts the whole list. -/
def pyIntList : List String → Option (List Int)
  | [] => some []
  | s :: rest =>
    match pyInt s with
    | none => none
    | some n =>
      match pyIntList rest with
      | none => none
      | some ns => some (n :: ns)

/-- Duration parsing of lines 175-185: split the clock text on colons,
convert every part with `int`, and sum; a `ValueError` from `int`, an
absent text, or a part count other than 2 or 3 leaves the duration
`None`. -/
def parseDurationText (duration_text : Option String) : Option Int :=
  match duration_text with
  | none => none
  | some s =>
    if s = "" then none
    else
      match pyIntList (pySplit ':' s) with
      | none => none
      | some parts =>
        match parts with
        | [h, m, sec] => some (h * 3600 + m * 60 + sec)
        | [m, sec] => some (m * 60 + sec)
        | _ => none

/-- The expression `result.get('artists', [\x7b\x7d])[0].get('name',
'Unknown Artist')` (line 190): an absent `artists` key defaults to a
one-element list of an empty dictionary, but a present and empty list
raises `IndexError` at `[0]`. -/
def ytFirstArtistName (artists : Option (List YTArtist)) : Except Unit String :=
  match artists.getD [YTArtist.mk none] with
  | [] => Except.error ()
  | a :: _ => Except.ok (a.name.getD "Unknown Artist")

/-- Building the returned dictionary for the selected result
(lines 175-192). -/
def extractTrackInfo (result : SearchResult) : Except Unit TrackInfo :=
  let duration_seconds := parseDurationText result.duration
  match result.videoId with
  | none => Except.error ()
  | some vid =>
    match ytFirstArtistName result.artists with
    | Except.error e => Except.error e
    | Except.ok artist =>
      Except.ok (TrackInfo.mk vid (result.title.getD "Unknown Title") artist duration_seconds)

/-- The selection loop of lines 173-193: return for the first result whose
`resultType` is `'song'`; `None` when no result qualifies. -/
def selectSong : List SearchResult → Except Unit (Option TrackInfo)
  | [] => Except.ok none
  | r :: rs =>
    if r.resultType = some "song" then Except.map some (extractTrackInfo r)
    else selectSong rs

/-- `search_youtube_music_track` (lines 164-193), parameterized by the
search collaborator `ytmusic.search` (which receives the query
`"{track_name} {artist_name}"` and may itself raise). -/
def search_youtube_music_track (search : String → Except Unit (List SearchResult))
    (track_name artist_name : String) : Except Unit (Option TrackInfo) :=
  match search (track_name ++ " " ++ artist_name) with
  | Except.error e => Except.error e
  | Except.ok results => selectSong results

/-! ## Transfer orchestrator (`main`, lines 428-513) -/

/-- One entry of the Spotify track `artists` list. -/
structure SpArtist where
  name : Option String
deriving DecidableEq

/-- The `track` dictionary of a Spotify playlist item. -/
structure SpTrack where
  name : Option String
  artists : Option (List SpArtist)
  duration_ms : Option ℚ
deriving DecidableEq

/-- One item of the fetched playlist track list. `track = none` models
`item.get('track', \x7b\x7d)` being absent, `None`, or empty (all falsy at
line 430). -/
structure PlaylistItem where
  track : Option SpTrack
deriving DecidableEq

/-- The four accumulators of the orchestrator loop (lines 420-423).
Mismatch entries carry (name, artist, spotify seconds, yt seconds, diff);
skip entries carry (name, artist, reason). -/
structure TransferState where
  video_ids : List String
  unmatched_tracks : List String
  duration_mismatches : List (String × String × ℚ × ℚ × ℚ)
  duration_skipped : List (String × String × String)
deriving DecidableEq

/-- The expression `track.get('artists', [\x7b\x7d])[0].get('name',
'Unknown Artist')` (line 436), with the same `IndexError` on a present
empty list as on the YT side. -/
def spFirstArtistName (artists : Option (List SpArtist)) : Except Unit String :=
  match artists.getD [SpArtist.mk none] with
  | [] => Except.error ()
  | a :: _ => Except.ok (a.name.getD "Unknown Artist")

/-- The YT duration, an integer count of seconds in the extracted track
info, as the rational the comparison of lines 472-499 works with. -/
def ytDurationToRat : Option Int → Option ℚ
  | none => none
  | some n => some (n : ℚ)

/-- The body of the per-track loop of `main` (lines 428-513) for one item:
extract the track fields, run the matcher, append the video id and the
duration buckets on a match, or the unmatched label on a miss. Exceptions
raised inside the body (Spotify artist `IndexError`, a raising search
collaborator, `KeyError` on `videoId`, YT artist `IndexError`) propagate:
there is no per-track handler in the source. -/
def processTrack (search : String → Except Unit (List SearchResult))
    (variance_amount : Option ℚ) (variance_mode : Mode)
    (st : TransferState) (item : PlaylistItem) : Except Unit TransferState :=
  match item.track with
  | none => Except.ok st
  | some track =>
    match spFirstArtistName track.artists with
    | Except.error e => Except.error e
    | Except.ok artist_name =>
      match search_youtube_music_track search (track.name.getD "Unknown Track") artist_name with
      | Except.error e => Except.error e
      | Except.ok none =>
        Except.ok { st with
          unmatched_tracks :=
            st.unmatched_tracks ++ [track.name.getD "Unknown Track" ++ " - " ++ artist_name] }
      | Except.ok (some track_info) =>
        let st1 : TransferState := { st with video_ids := st.video_ids ++ [track_info.videoId] }
        match variance_amount with
        | none => Except.ok st1
        | some amt =>
          match evaluateDuration amt variance_mode (track.duration_ms.getD 0)
              (ytDurationToRat track_info.duration_seconds) with
          | DurationOutcome.skipped reason =>
            Except.ok { st1 with
              duration_skipped := st1.duration_skipped ++
                [(track.name.getD "Unknown Track", artist_name, reason)] }
          | DurationOutcome.mismatch sp yt diff =>
            Except.ok { st1 with
              duration_mismatches := st1.duration_mismatches ++
                [(track.name.getD "Unknown Track", artist_name, sp, yt, diff)] }
          | DurationOutcome.agree => Except.ok st1

/-- The `for item in tracks` loop of `main`: sequential, and an exception
in one iteration aborts the whole loop (it is caught only by the outer
handler of line 568, which ends the transfer). -/
def processLoop (search : String → Except Unit (List SearchResult))
    (variance_amount : Option ℚ) (variance_mode : Mode) :
    TransferState → List PlaylistItem → Except Unit TransferState
  | st, [] => Except.ok st
  | st, item :: rest =>
    match processTrack search variance_amount variance_mode st item with
    | Except.error e => Except.error e
    | Except.ok st1 => processLoop search variance_amount variance_mode st1 rest

/-- The full search pass of `main` starting from the empty accumulators of
lines 420-423. -/
def processTracks (search : String → Except Unit (List SearchResult))
    (variance_amount : Option ℚ) (variance_mode : Mode)
    (items : List PlaylistItem) : Except Unit TransferState :=
  processLoop search variance_amount variance_mode (TransferState.mk [] [] [] []) items

/-! ## Variance resolution (`main`, lines 388-406) -/

/-- The Python or-operator on optional strings, as used at line 392: the
left operand when truthy (present and nonempty), otherwise the right
operand. -/
def pyOrStr (a b : Option String) : Option String :=
  match a with
  | some s => if s = "" then b else some s
  | none => b

/-- Lines 388-406 of `main`: pick the CLI option when truthy, otherwise
the environment string (the Python or-operator); parse; default a missing
amount to 3.0 seconds; then let a truthy recognized `VARIANCE_MODE`
environment value force the mode. -/
def resolveVariance (variance_opt env_variance env_variance_mode : Option String) : ℚ × Mode :=
  let parsed := parse_variance (pyOrStr variance_opt env_variance)
  let variance_amount :=
    match parsed.1 with
    | none => (3 : ℚ)
    | some a => a
  let mode0 :=
    match parsed.1 with
    | none => Mode.seconds
    | some _ => parsed.2
  let variance_mode :=
    match env_variance_mode with
    | none => mode0
    | some em =>
      if em = "" then mode0
      else
        if pyLower (pyStrip em) ∈ ["seconds", "second", "sec", "s"] then Mode.seconds
        else if pyLower (pyStrip em) ∈ ["percent", "%", "perc"] then Mode.percent
        else mode0
  (variance_amount, variance_mode)

/-! ## Batch submission (`add_tracks_to_playlist`, lines 270-320) -/

/-- The validity filter of line 287: `vid and isinstance(vid, str) and
len(vid) == 11`. -/
def validVideoIds (video_ids : List String) : List String :=
  video_ids.filter fun vid => !(vid == "") && (vid.length == 11)

/-- Python `range(0, n, 100)` as a list. -/
def pyRangeStep100 (n : Nat) : List Nat :=
  (List.range n).filter fun i => i % 100 = 0

/-- `add_tracks_to_playlist` (lines 270-320), parameterized by the
per-batch collaborator call `ytmusic.add_playlist_items` whose outcome is
reported as a flag. The loop body of lines 294-314 wraps the call in
`try/except Exception: continue`, so every batch start produced by
`range(0, len(valid_video_ids), 100)` is attempted in order no matter how
earlier batches fared; the returned list records each attempted batch with
its outcome. -/
def add_tracks_to_playlist (addItems : List String → Bool)
    (video_ids : List String) : List (List String × Bool) :=
  if video_ids = [] then []
  else
    let valid_video_ids := validVideoIds video_ids
    if valid_video_ids = [] then []
    else
      (pyRangeStep100 valid_video_ids.length).map fun i =>
        let batch := (valid_video_ids.drop i).take 100
        (batch, addItems batch)

/-! ## Playlist cache (`get_spotify_playlist`, lines 94-128) -/

/-- The dictionary stored in a cache file, with each key possibly absent.
The playlist metadata is opaque to the cache logic and modelled as a
string. -/
structure CachedData where
  cached_at : Option String
  playlist : Option String
  tracks : Option (List PlaylistItem)
deriving DecidableEq

/-- Result of the cache consultation: a hit returns the stored playlist
and tracks, a miss falls through to the live fetch of lines 131-158. -/
inductive CacheLoad where
  | hit (playlist : String) (tracks : List PlaylistItem)
  | miss
deriving DecidableEq

/-- The cache consultation of `get_spotify_playlist`, lines 116-128.
`cache_file` is `none` when the file does not exist and otherwise carries
the outcome of `json.load` (`Except.error` is a `JSONDecodeError`).
`fromisoformat` models `datetime.fromisoformat`, with `none` for a
`ValueError`. The `try` of line 117 catches exactly `json.JSONDecodeError`
and `KeyError`, so a `ValueError` from `fromisoformat` propagates out of
the function, modelled as `Except.error ()`. Times are rationals measured
in days, so `datetime.now() - cache_time < timedelta(days=d)` becomes
`now - cache_time < d`. -/
def get_spotify_playlist_cache (fromisoformat : String → Option ℚ)
    (now cache_expiry_days : ℚ) (use_cache : Bool)
    (cache_file : Option (Except Unit CachedData)) : Except Unit CacheLoad :=
  match use_cache, cache_file with
  | true, some parsed =>
    match parsed with
    | Except.error _ => Except.ok CacheLoad.miss
    | Except.ok cached_data =>
      match cached_data.cached_at with
      | none => Except.ok CacheLoad.miss
      | some ts =>
        match fromisoformat ts with
        | none => Except.error ()
        | some cache_time =>
          if now - cache_time < cache_expiry_days then
            match cached_data.playlist, cached_data.tracks with
            | some p, some t => Except.ok (CacheLoad.hit p t)
            | some _, none => Except.ok CacheLoad.miss
            | none, _ => Except.ok CacheLoad.miss
          else Except.ok CacheLoad.miss
  | _, _ => Except.ok CacheLoad.miss

/-! ## Theorems -/

/-- C3: VarianceSpec parser: `parse("5s") = (5.0, Seconds)`,
`parse("5%") = (5.0, Percent)`, `parse("") = (absent, Seconds)`,
`parse("abc") = (absent, Seconds)`, `parse("5") = (5.0, Seconds)`; and for
every input string with no numeric prefix match (the normalized string
does not start with a digit, so the regex cannot match), parse returns
`(absent, Seconds)`; the function is total, so it never raises. -/
theorem C3_parse_variance_cases :
    parse_variance (some "5s") = (some 5, Mode.seconds)
    ∧ parse_variance (some "5%") = (some 5, Mode.percent)
    ∧ parse_variance (some "") = (none, Mode.seconds)
    ∧ parse_variance (some "abc") = (none, Mode.seconds)
    ∧ parse_variance (some "5") = (some 5, Mode.seconds)
    ∧ ∀ s : String,
        ((pyLower (pyStrip s)).data.head?.all fun c => !c.isDigit) = true →
        parse_variance (some s) = (none, Mode.seconds) := by
  refine ⟨by decide, by decide, by decide, by decide, by decide, ?_⟩
  intro s h
  unfold parse_variance
  by_cases hs : s = ""
  · simp [hs]
  · have hfm : varianceFullmatch (pyLower (pyStrip s)) = none := by
      unfold varianceFullmatch
      cases hw : (pyLower (pyStrip s)).data with
      | nil => simp
      | cons c cs =>
        rw [hw] at h
        simp only [List.head?, Option.all_some, Bool.not_eq_true'] at h
        simp [List.takeWhile_cons, h]
    simp [hs, hfm]

/-- Witness for C3: the universal clause applied to the concrete malformed
input `"%%"`. -/
theorem C3_parse_variance_cases_witness :
    parse_variance (some "%%") = (none, Mode.seconds) :=
  C3_parse_variance_cases.2.2.2.2.2 "%%" (by decide)

/-- C1: duration comparator decision with both durations present and a
nonzero source duration: seconds mode mismatches iff the absolute
difference of `sourceMs / 1000` and `destSec` strictly exceeds the amount;
percent mode mismatches iff the source seconds are positive and the
percentage difference strictly exceeds the amount; percent mode with
nonpositive source seconds never mismatches. -/
theorem C1_duration_comparator_decision (sourceMs destSec amount : ℚ)
    (hms : sourceMs ≠ 0) (hamt : 0 ≤ amount) :
    ((evaluateDuration amount Mode.seconds sourceMs (some destSec)).isMismatch = true ↔
      |sourceMs / 1000 - destSec| > amount)
    ∧ ((evaluateDuration amount Mode.percent sourceMs (some destSec)).isMismatch = true ↔
      (sourceMs / 1000 > 0 ∧ |sourceMs / 1000 - destSec| / (sourceMs / 1000) * 100 > amount))
    ∧ (sourceMs / 1000 ≤ 0 →
      (evaluateDuration amount Mode.percent sourceMs (some destSec)).isMismatch = false) := by
  refine ⟨?_, ?_, ?_⟩
  · by_cases hd : |sourceMs / 1000 - destSec| > amount <;>
      simp [evaluateDuration, DurationOutcome.isMismatch, hms, hd]
  · by_cases hp : sourceMs / 1000 > 0 <;>
      by_cases hq : |sourceMs / 1000 - destSec| / (sourceMs / 1000) * 100 > amount <;>
      simp [evaluateDuration, DurationOutcome.isMismatch, hms, hp, hq]
  · intro hle
    have hp : ¬ sourceMs / 1000 > 0 := not_lt.mpr hle
    simp [evaluateDuration, DurationOutcome.isMismatch, hms, hp]

/-- Witness for C1: a 180000 ms source track against a 175 s destination
candidate with a 3-second tolerance. -/
theorem C1_duration_comparator_decision_witness :
    (180000 : ℚ) ≠ 0 ∧ (0 : ℚ) ≤ 3 ∧
    ((evaluateDuration 3 Mode.seconds 180000 (some 175)).isMismatch = true ↔
      |(180000 : ℚ) / 1000 - 175| > 3) :=
  ⟨by norm_num, by norm_num,
    (C1_duration_comparator_decision 180000 175 3 (by norm_num) (by norm_num)).1⟩

/-- C6: duration comparator skip rules, for a present variance amount
(after resolution the script always has one). The script calls its
services Spotify and YouTube where the specification says source and
destination; the reason strings of lines 454 and 465 are
`"missing Spotify duration"` and `"missing YouTube duration"`. An absent
source duration reaches the comparator as `0` through the `or 0` of
line 437, modelled by `Option.getD 0`. A skipped track is never also
filed as a mismatch: a loop step that extends `duration_skipped` leaves
`duration_mismatches` unchanged. -/
theorem C6_duration_skip_rules :
    (∀ (amount : ℚ) (mode : Mode) (destSec : Option ℚ) (sourceMs : Option ℚ),
      sourceMs = none ∨ sourceMs = some 0 →
      evaluateDuration amount mode (sourceMs.getD 0) destSec =
        DurationOutcome.skipped "missing Spotify duration")
    ∧ (∀ (amount : ℚ) (mode : Mode) (sourceMs : ℚ), sourceMs ≠ 0 →
      evaluateDuration amount mode sourceMs none =
        DurationOutcome.skipped "missing YouTube duration")
    ∧ (∀ search (amount : ℚ) (mode : Mode) (st : TransferState) (item : PlaylistItem)
        (st' : TransferState),
      processTrack search (some amount) mode st item = Except.ok st' →
      st'.duration_skipped ≠ st.duration_skipped →
      st'.duration_mismatches = st.duration_mismatches) := by
  refine ⟨?_, ?_, ?_⟩
  · rintro amount mode destSec sourceMs (rfl | rfl) <;> simp [evaluateDuration]
  · intro amount mode sourceMs hms
    simp [evaluateDuration, hms]
  · intro search amount mode st item st' h hne
    unfold processTrack at h
    split at h
    · cases h
      exact absurd rfl hne
    · split at h
      · cases h
      · split at h
        · cases h
        · cases h
          exact absurd rfl hne
        · split at h
          · rename_i heq
            exact Option.noConfusion heq
          · split at h
            · cases h
              rfl
            · cases h
              exact absurd rfl hne
            · cases h
              exact absurd rfl hne

/-- Witness for C6: the first two clauses at concrete inputs, matching the
`evaluate(0, 200, spec)` example of the specification. -/
theorem C6_duration_skip_rules_witness :
    evaluateDuration 3 Mode.seconds ((none : Option ℚ).getD 0) (some 200) =
      DurationOutcome.skipped "missing Spotify duration"
    ∧ evaluateDuration 3 Mode.seconds 180 none =
      DurationOutcome.skipped "missing YouTube duration" :=
  ⟨C6_duration_skip_rules.1 3 Mode.seconds (some 200) none (Or.inl rfl),
   C6_duration_skip_rules.2.1 3 Mode.seconds 180 (by norm_num)⟩

/-- C7: variance resolution: when neither the CLI flag nor the
environment variance string parses to a present amount, the resolved
tolerance is the hard default of 3.0 seconds; the environment mode
override never touches the amount; a truthy recognized override forces
the unit; an unrecognized override leaves the unit as resolved without
it. -/
theorem C7_variance_resolution :
    (∀ cli env : Option String,
      (parse_variance cli).1 = none → (parse_variance env).1 = none →
      resolveVariance cli env none = (3, Mode.seconds))
    ∧ (∀ (cli env em : Option String),
      (resolveVariance cli env em).1 = (resolveVariance cli env none).1)
    ∧ (∀ (cli env : Option String) (em : String), em ≠ "" →
      pyLower (pyStrip em) ∈ ["seconds", "second", "sec", "s"] →
      (resolveVariance cli env (some em)).2 = Mode.seconds)
    ∧ (∀ (cli env : Option String) (em : String), em ≠ "" →
      pyLower (pyStrip em) ∈ ["percent", "%", "perc"] →
      (resolveVariance cli env (some em)).2 = Mode.percent)
    ∧ (∀ (cli env : Option String) (em : String), em ≠ "" →
      pyLower (pyStrip em) ∉ (["seconds", "second", "sec", "s"] : List String) →
      pyLower (pyStrip em) ∉ (["percent", "%", "perc"] : List String) →
      (resolveVariance cli env (some em)).2 = (resolveVariance cli env none).2) := by
  refine ⟨?_, ?_, ?_, ?_, ?_⟩
  · intro cli env h1 h2
    have hstr : (parse_variance (pyOrStr cli env)).1 = none := by
      cases cli with
      | none => exact h2
      | some s =>
        by_cases hs : s = ""
        · simpa [pyOrStr, hs] using h2
        · simpa [pyOrStr, hs] using h1
    simp only [resolveVariance]
    rw [hstr]
  · intro cli env em
    rfl
  · intro cli env em hne hmem
    simp [resolveVariance, hne, hmem]
  · intro cli env em hne hmem
    have hnot : pyLower (pyStrip em) ∉ (["seconds", "second", "sec", "s"] : List String) := by
      intro hc
      simp only [List.mem_cons, List.not_mem_nil, or_false] at hmem hc
      rcases hmem with h | h | h <;> rw [h] at hc <;> simp at hc
    simp [resolveVariance, hne, hmem, hnot]
  · intro cli env em hne h1 h2
    simp [resolveVariance, hne, h1, h2]

/-- Witness for C7: no CLI flag, no environment variance, no override
resolves to the 3.0-second default; a `"PERCENT"` override forces percent
mode; a `"bogus"` override is ignored. -/
theorem C7_variance_resolution_witness :
    resolveVariance none none none = (3, Mode.seconds)
    ∧ (resolveVariance none none (some "PERCENT")).2 = Mode.percent
    ∧ (resolveVariance none none (some "bogus")).2 = (resolveVariance none none none).2 :=
  ⟨C7_variance_resolution.1 none none (by decide) (by decide),
   C7_variance_resolution.2.2.2.1 none none "PERCENT" (by decide) (by decide),
   C7_variance_resolution.2.2.2.2 none none "bogus" (by decide) (by decide) (by decide)⟩

/-- Helper: when no result has type `song`, the selection loop returns
`None`. -/
theorem selectSong_of_no_song (results : List SearchResult)
    (h : results.find? (fun r => decide (r.resultType = some "song")) = none) :
    selectSong results = Except.ok none := by
  induction results with
  | nil => rfl
  | cons r rs ih =>
    rw [List.find?_cons] at h
    split at h
    · cases h
    · rename_i hr
      have hr2 : ¬ r.resultType = some "song" := by simpa using hr
      simpa [selectSong, hr2] using ih h

/-- Helper: the selection loop is fully determined by the first result
whose type is `song`. -/
theorem selectSong_of_first_song (results : List SearchResult) (r : SearchResult)
    (h : results.find? (fun r => decide (r.resultType = some "song")) = some r) :
    selectSong results = Except.map some (extractTrackInfo r) := by
  induction results with
  | nil => cases h
  | cons a rs ih =>
    rw [List.find?_cons] at h
    split at h
    · cases h
      rename_i ha
      have ha2 : r.resultType = some "song" := by simpa using ha
      simp [selectSong, ha2]
    · rename_i ha
      have ha2 : ¬ a.resultType = some "song" := by simpa using ha
      simpa [selectSong, ha2] using ih h

/-- C2: the track matcher selects the first result (in returned rank
order) whose result-type tag equals `"song"`, ignoring all other result
kinds even when they rank earlier: its outcome is a function of that
first song-typed result alone. When no result qualifies it returns
absent, with no fallback and no second query (the collaborator answers
the single query with `results`, and the outcome depends only on that
one answer). -/
theorem C2_matcher_first_song (results : List SearchResult)
    (track_name artist_name : String) :
    (results.find? (fun r => decide (r.resultType = some "song")) = none →
      search_youtube_music_track (fun _ => Except.ok results) track_name artist_name =
        Except.ok none)
    ∧ (∀ r : SearchResult,
      results.find? (fun r => decide (r.resultType = some "song")) = some r →
      search_youtube_music_track (fun _ => Except.ok results) track_name artist_name =
        Except.map some (extractTrackInfo r)) := by
  constructor
  · intro h
    simpa [search_youtube_music_track] using selectSong_of_no_song results h
  · intro r h
    simpa [search_youtube_music_track] using selectSong_of_first_song results r h

/-- A `video`-typed result ranked first, as in the specification's
example. -/
def exampleVideoResult : SearchResult :=
  SearchResult.mk (some "video") (some "v1234567890") (some "Some Video")
    (some [YTArtist.mk (some "Video Channel")]) (some "3:45")

/-- A `song`-typed result ranked second, as in the specification's
example. -/
def exampleSongResult : SearchResult :=
  SearchResult.mk (some "song") (some "abc12345678") (some "Some Song")
    (some [YTArtist.mk (some "Some Artist")]) (some "3:45")

/-- Witness for C2: with a video ranked first and a song ranked second,
the matcher returns the song. -/
theorem C2_matcher_first_song_witness :
    search_youtube_music_track (fun _ => Except.ok [exampleVideoResult, exampleSongResult])
      "t" "a" = Except.map some (extractTrackInfo exampleSongResult) :=
  (C2_matcher_first_song [exampleVideoResult, exampleSongResult] "t" "a").2
    exampleSongResult (by decide)

/-- A `song`-typed result whose `artists` key is present but holds an
empty list. -/
def emptyArtistsSongResult : SearchResult :=
  SearchResult.mk (some "song") (some "abc12345678") (some "Some Song")
    (some []) (some "3:45")

/-- Counterexample for C10: the claim says the primary artist defaults to
`"Unknown Artist"` when the artist list is empty, but on a selected song
whose `artists` key holds an empty list the expression
`result.get('artists', [\x7b\x7d])[0]` raises `IndexError` (the default
only covers an absent key), so the matcher raises instead of returning a
candidate. -/
theorem C10_extraction_counterexample :
    search_youtube_music_track (fun _ => Except.ok [emptyArtistsSongResult]) "x" "y" =
      Except.error () := by
  decide

/-- C10 as amended: extraction is total except when the present artist
list is empty: the title defaults to `"Unknown Title"` when missing, the
primary artist defaults to `"Unknown Artist"` when the `artists` key is
absent or the first artist entry has no name (an empty present list
instead raises `IndexError`), and the duration is parsed from a
colon-delimited `MM:SS` or `HH:MM:SS` clock string into integer seconds,
with malformed or absent duration text yielding an absent duration
rather than an error. -/
theorem C10_extraction_amended :
    (∀ (r : SearchResult) (v : String), r.videoId = some v → r.artists = none →
      extractTrackInfo r =
        Except.ok (TrackInfo.mk v (r.title.getD "Unknown Title") "Unknown Artist"
          (parseDurationText r.duration)))
    ∧ (∀ (r : SearchResult) (v : String) (a : YTArtist) (rest : List YTArtist),
      r.videoId = some v → r.artists = some (a :: rest) →
      extractTrackInfo r =
        Except.ok (TrackInfo.mk v (r.title.getD "Unknown Title") (a.name.getD "Unknown Artist")
          (parseDurationText r.duration)))
    ∧ parseDurationText (some "3:45") = some 225
    ∧ parseDurationText (some "1:02:03") = some 3723
    ∧ parseDurationText none = none
    ∧ parseDurationText (some "") = none
    ∧ parseDurationText (some "abc") = none
    ∧ parseDurationText (some "12") = none
    ∧ parseDurationText (some "1:2:3:4") = none := by
  refine ⟨?_, ?_, by decide, by decide, by decide, by decide, by decide, by decide, by decide⟩
  · intro r v hv ha
    simp [extractTrackInfo, hv, ha, ytFirstArtistName]
  · intro r v a rest hv ha
    simp [extractTrackInfo, hv, ha, ytFirstArtistName]

/-- A `song`-typed result with no title, no artists key, and no duration
text. -/
def bareSongResult : SearchResult :=
  SearchResult.mk (some "song") (some "abcdefghijk") none none none

/-- Witness for C10 as amended: the defaulting clause applied to a song
with every optional field missing. -/
theorem C10_extraction_amended_witness :
    extractTrackInfo bareSongResult =
      Except.ok (TrackInfo.mk "abcdefghijk" (bareSongResult.title.getD "Unknown Title")
        "Unknown Artist" (parseDurationText bareSongResult.duration)) :=
  C10_extraction_amended.1 bareSongResult "abcdefghijk" rfl rfl

/-- Specification-side description of what one playlist item contributes
to the ordered add-list: the destination identifier of the matched
candidate, when the matcher succeeds with one; nothing otherwise. -/
def specAddContribution (search : String → Except Unit (List SearchResult))
    (item : PlaylistItem) : List String :=
  match item.track with
  | none => []
  | some track =>
    match spFirstArtistName track.artists with
    | Except.error _ => []
    | Except.ok artist_name =>
      match search_youtube_music_track search (track.name.getD "Unknown Track") artist_name with
      | Except.ok (some track_info) => [track_info.videoId]
      | _ => []

/-- Specification-side description of what one playlist item contributes
to the unmatched label list: the `"name - artist"` label when the matcher
returns no candidate; nothing otherwise. -/
def specUnmatchedContribution (search : String → Except Unit (List SearchResult))
    (item : PlaylistItem) : List String :=
  match item.track with
  | none => []
  | some track =>
    match spFirstArtistName track.artists with
    | Except.error _ => []
    | Except.ok artist_name =>
      match search_youtube_music_track search (track.name.getD "Unknown Track") artist_name with
      | Except.ok none => [track.name.getD "Unknown Track" ++ " - " ++ artist_name]
      | _ => []

/-- The ordered concatenation of per-item add-list contributions. -/
def specAddList (search : String → Except Unit (List SearchResult)) :
    List PlaylistItem → List String
  | [] => []
  | item :: rest => specAddContribution search item ++ specAddList search rest

/-- The ordered concatenation of per-item unmatched-label contributions. -/
def specUnmatchedList (search : String → Except Unit (List SearchResult)) :
    List PlaylistItem → List String
  | [] => []
  | item :: rest => specUnmatchedContribution search item ++ specUnmatchedList search rest

/-- Helper: one successful loop step extends the add-list exactly by the
item's contribution and the unmatched list exactly by its label
contribution, for every variance setting. -/
theorem processTrack_buckets (search : String → Except Unit (List SearchResult))
    (variance_amount : Option ℚ) (variance_mode : Mode)
    (st : TransferState) (item : PlaylistItem) (st' : TransferState)
    (h : processTrack search variance_amount variance_mode st item = Except.ok st') :
    st'.video_ids = st.video_ids ++ specAddContribution search item
    ∧ st'.unmatched_tracks = st.unmatched_tracks ++ specUnmatchedContribution search item := by
  unfold processTrack at h
  unfold specAddContribution specUnmatchedContribution
  split at h
  · cases h
    simp
  · split at h
    · cases h
    · split at h
      · cases h
      · cases h
        simp [*]
      · split at h
        · cases h
          simp [*]
        · split at h
          · cases h
            simp [*]
          · cases h
            simp [*]
          · cases h
            simp [*]

/-- Helper: a successful run of the loop from any start state appends the
concatenated contributions to the starting accumulators. -/
theorem processLoop_buckets (search : String → Except Unit (List SearchResult))
    (variance_amount : Option ℚ) (variance_mode : Mode) :
    ∀ (items : List PlaylistItem) (st0 st : TransferState),
      processLoop search variance_amount variance_mode st0 items = Except.ok st →
      st.video_ids = st0.video_ids ++ specAddList search items
      ∧ st.unmatched_tracks = st0.unmatched_tracks ++ specUnmatchedList search items := by
  intro items
  induction items with
  | nil =>
    intro st0 st h
    cases h
    simp [specAddList, specUnmatchedList]
  | cons item rest ih =>
    intro st0 st h
    unfold processLoop at h
    split at h
    · cases h
    · rename_i st1 hstep
      obtain ⟨hv, hu⟩ := processTrack_buckets search variance_amount variance_mode
        st0 item st1 hstep
      obtain ⟨hv2, hu2⟩ := ih st1 st h
      constructor
      · rw [hv2, hv, specAddList, List.append_assoc]
      · rw [hu2, hu, specUnmatchedList, List.append_assoc]

/-- C4: orchestrator invariant: whenever the search pass completes, the
add-list is exactly the in-order concatenation of the matched candidates'
destination identifiers (duplicates allowed), independent of the variance
setting — so filing a track into `duration_mismatches` or
`duration_skipped` never removes its identifier — and the unmatched
label list is exactly the in-order concatenation of the
`"name - artist"` labels of the tracks the matcher found nothing for,
which contribute nothing to the add-list. -/
theorem C4_orchestrator_addlist (search : String → Except Unit (List SearchResult))
    (variance_amount : Option ℚ) (variance_mode : Mode)
    (items : List PlaylistItem) (st : TransferState)
    (h : processTracks search variance_amount variance_mode items = Except.ok st) :
    st.video_ids = specAddList search items
    ∧ st.unmatched_tracks = specUnmatchedList search items := by
  have := processLoop_buckets search variance_amount variance_mode items
    (TransferState.mk [] [] [] []) st h
  simpa using this

/-- A playlist item that the example search matches. -/
def exampleItemA : PlaylistItem :=
  PlaylistItem.mk (some (SpTrack.mk (some "Song A") (some [SpArtist.mk (some "Artist X")])
    (some 180000)))

/-- A playlist item that the example search does not match. -/
def exampleItemB : PlaylistItem :=
  PlaylistItem.mk (some (SpTrack.mk (some "Song B") (some [SpArtist.mk (some "Artist Y")])
    none))

/-- The example search collaborator: a song for the query of `exampleItemA`,
no results otherwise. -/
def exampleSearch : String → Except Unit (List SearchResult) :=
  fun q =>
    if q = "Song A Artist X" then Except.ok [exampleSongResult]
    else Except.ok []

/-- Witness for C4: a two-item run (one matched, one unmatched) whose
final accumulators are the predicted concatenations. -/
theorem C4_orchestrator_addlist_witness :
    (TransferState.mk ["abc12345678"] ["Song B - Artist Y"] [] []).video_ids =
      specAddList exampleSearch [exampleItemA, exampleItemB]
    ∧ (TransferState.mk ["abc12345678"] ["Song B - Artist Y"] [] []).unmatched_tracks =
      specUnmatchedList exampleSearch [exampleItemA, exampleItemB] :=
  C4_orchestrator_addlist exampleSearch none Mode.seconds [exampleItemA, exampleItemB]
    (TransferState.mk ["abc12345678"] ["Song B - Artist Y"] [] []) (by decide)

/-- A search collaborator that raises on the query of `exampleItemA` and
answers a song for every other query. -/
def raisingSearch : String → Except Unit (List SearchResult) :=
  fun q =>
    if q = "Song A Artist X" then Except.error ()
    else Except.ok [exampleSongResult]

/-- Counterexample for C9: the claim says a failure during the search step
degrades the track to Unmatched and the run continues with the remaining
tracks; but with a collaborator that raises on the first track's query,
the whole pass aborts — the exception propagates to the outer handler of
line 568, which ends the transfer — so the second track (which would have
matched) is never processed and nothing is filed as unmatched. -/
theorem C9_containment_counterexample :
    processTracks raisingSearch (some 3) Mode.seconds [exampleItemA, exampleItemB] =
      Except.error () := by
  decide

/-- C9 as amended: a search step that returns no song-typed result for the
query degrades that track to Unmatched (its `"name - artist"` label is
appended) and the run continues with the remaining tracks; but an
exception raised by the search collaborator, or a missing field in a
selected result, propagates and aborts the entire transfer instead of
degrading the one track. -/
theorem C9_containment_amended (search : String → Except Unit (List SearchResult))
    (variance_amount : Option ℚ) (variance_mode : Mode)
    (st : TransferState) (item : PlaylistItem) (rest : List PlaylistItem)
    (track : SpTrack) (artist_name : String)
    (htr : item.track = some track)
    (hartist : spFirstArtistName track.artists = Except.ok artist_name)
    (hsearch : search_youtube_music_track search (track.name.getD "Unknown Track") artist_name =
      Except.ok none) :
    processLoop search variance_amount variance_mode st (item :: rest) =
      processLoop search variance_amount variance_mode
        { st with unmatched_tracks :=
            st.unmatched_tracks ++ [track.name.getD "Unknown Track" ++ " - " ++ artist_name] }
        rest := by
  have hstep : processTrack search variance_amount variance_mode st item =
      Except.ok { st with unmatched_tracks :=
        st.unmatched_tracks ++ [track.name.getD "Unknown Track" ++ " - " ++ artist_name] } := by
    unfold processTrack
    rw [htr]
    simp only [hartist, hsearch]
  calc processLoop search variance_amount variance_mode st (item :: rest)
      = (match processTrack search variance_amount variance_mode st item with
          | Except.error e => Except.error e
          | Except.ok st1 => processLoop search variance_amount variance_mode st1 rest) := rfl
    _ = processLoop search variance_amount variance_mode
          { st with unmatched_tracks :=
              st.unmatched_tracks ++ [track.name.getD "Unknown Track" ++ " - " ++ artist_name] }
          rest := by rw [hstep]

/-- Witness for C9 as amended: an unmatched first item turns into its
label and the loop continues with the (empty) remainder. -/
theorem C9_containment_amended_witness :
    processLoop (fun _ => Except.ok []) none Mode.seconds
      (TransferState.mk [] [] [] []) [exampleItemB] =
      processLoop (fun _ => Except.ok []) none Mode.seconds
        (TransferState.mk [] ["Song B - Artist Y"] [] []) [] :=
  C9_containment_amended (fun _ => Except.ok []) none Mode.seconds
    (TransferState.mk [] [] [] []) exampleItemB []
    (SpTrack.mk (some "Song B") (some [SpArtist.mk (some "Artist Y")]) none)
    "Artist Y" rfl rfl (by decide)

/-- Specification-side canonical batching: the first 100 identifiers,
then recursively the remainder — fixed-size batches of 100 in list
order, the last batch possibly smaller. The code's attempted batches are
proven equal to this chunking for every list. -/
def batchesOfHundred (l : List String) : List (List String) :=
  if h : l = [] then [] else l.take 100 :: batchesOfHundred (l.drop 100)
termination_by l.length
decreasing_by
  simp only [List.length_drop]
  exact Nat.sub_lt (List.length_pos.mpr h) (by norm_num)

/-- Helper: the batch starts for `100 + m` identifiers are `0` followed by
the starts for `m` identifiers shifted by 100. -/
theorem pyRangeStep100_add (m : Nat) :
    pyRangeStep100 (100 + m) = 0 :: (pyRangeStep100 m).map (fun i => 100 + i) := by
  unfold pyRangeStep100
  rw [List.range_add, List.filter_append, List.filter_map]
  have h1 : (List.range 100).filter (fun i => i % 100 = 0) = [0] := by decide
  have h2 : ((fun i => decide (i % 100 = 0)) ∘ fun x => 100 + x) =
      fun i => decide (i % 100 = 0) := by
    funext x
    simp [Function.comp, Nat.add_mod_left]
  rw [h1, h2]
  rfl

/-- Helper: with at most 100 identifiers there is a single batch start. -/
theorem pyRangeStep100_small (n : Nat) (h0 : 0 < n) (h100 : n ≤ 100) :
    pyRangeStep100 n = [0] := by
  have hn : n = 1 + (n - 1) := by omega
  rw [hn]
  unfold pyRangeStep100
  rw [List.range_add, List.filter_append, List.filter_map]
  have h1 : (List.range 1).filter (fun i => i % 100 = 0) = [0] := by decide
  have h2 : (List.range (n - 1)).filter
      ((fun i => decide (i % 100 = 0)) ∘ fun x => 1 + x) = [] := by
    refine List.filter_eq_nil_iff.mpr ?_
    intro a ha
    have halt : a < n - 1 := List.mem_range.mp ha
    have hmod : (1 + a) % 100 = 1 + a := Nat.mod_eq_of_lt (by omega)
    simp [Function.comp, hmod]
  rw [h1, h2]
  rfl

/-- Helper: peeling the first batch start off a nonempty range. -/
theorem pyRangeStep100_decomp (n : Nat) (h : 0 < n) :
    pyRangeStep100 n = 0 :: (pyRangeStep100 (n - 100)).map (fun i => 100 + i) := by
  by_cases h100 : 100 ≤ n
  · have hadd := pyRangeStep100_add (n - 100)
    rw [Nat.add_sub_cancel' h100] at hadd
    exact hadd
  · have hs := pyRangeStep100_small n h (by omega)
    have hz : n - 100 = 0 := by omega
    rw [hs, hz]
    rfl

/-- Helper: the slices the submission loop takes are exactly the canonical
chunking into batches of 100 in list order. -/
theorem pyRangeStep100_slices_eq :
    ∀ (n : Nat) (l : List String), l.length = n →
      (pyRangeStep100 l.length).map (fun i => (l.drop i).take 100) = batchesOfHundred l := by
  intro n
  induction n using Nat.strong_induction_on with
  | _ n ih =>
    intro l hlen
    by_cases hl : l = []
    · subst hl
      simp [batchesOfHundred, pyRangeStep100]
    · have hpos : 0 < l.length := List.length_pos.mpr hl
      rw [pyRangeStep100_decomp l.length hpos, List.map_cons, List.map_map]
      rw [batchesOfHundred, dif_neg hl]
      have hdrop : (l.drop 100).length = l.length - 100 := by
        simp [List.length_drop]
      have hlt : (l.drop 100).length < n := by
        rw [← hlen, hdrop]
        exact Nat.sub_lt hpos (by norm_num)
      have hih := ih ((l.drop 100).length) hlt (l.drop 100) rfl
      rw [hdrop] at hih
      rw [← hih]
      congr 1 <;> simp [Function.comp, List.drop_drop]

/-- Helper: the canonical batches concatenate, in order, back to the
original list. -/
theorem batchesOfHundred_flatten :
    ∀ (n : Nat) (l : List String), l.length = n → (batchesOfHundred l).flatten = l := by
  intro n
  induction n using Nat.strong_induction_on with
  | _ n ih =>
    intro l hlen
    by_cases hl : l = []
    · subst hl
      simp [batchesOfHundred]
    · rw [batchesOfHundred, dif_neg hl, List.flatten_cons]
      have hlt : (l.drop 100).length < n := by
        rw [← hlen]
        simp only [List.length_drop]
        exact Nat.sub_lt (List.length_pos.mpr hl) (by norm_num)
      rw [ih ((l.drop 100).length) hlt (l.drop 100) rfl]
      exact List.take_append_drop 100 l

/-- Helper: every canonical batch holds at most 100 identifiers. -/
theorem batchesOfHundred_le :
    ∀ (n : Nat) (l : List String), l.length = n →
      ∀ b ∈ batchesOfHundred l, b.length ≤ 100 := by
  intro n
  induction n using Nat.strong_induction_on with
  | _ n ih =>
    intro l hlen
    by_cases hl : l = []
    · subst hl
      simp [batchesOfHundred]
    · rw [batchesOfHundred, dif_neg hl]
      intro b hb
      rcases List.mem_cons.mp hb with hb | hb
      · subst hb
        rw [List.length_take]
        omega
      · have hlt : (l.drop 100).length < n := by
          rw [← hlen]
          simp only [List.length_drop]
          exact Nat.sub_lt (List.length_pos.mpr hl) (by norm_num)
        exact ih ((l.drop 100).length) hlt (l.drop 100) rfl b hb

/-- Helper: every canonical batch except the last holds exactly 100
identifiers. -/
theorem batchesOfHundred_nonfinal :
    ∀ (n : Nat) (l : List String), l.length = n → ∀ (k : Nat) (b : List String),
      (batchesOfHundred l)[k]? = some b → k + 1 < (batchesOfHundred l).length →
      b.length = 100 := by
  intro n
  induction n using Nat.strong_induction_on with
  | _ n ih =>
    intro l hlen k b hget hk
    by_cases hl : l = []
    · subst hl
      simp [batchesOfHundred] at hget
    · rw [batchesOfHundred, dif_neg hl] at hget hk
      have hlt : (l.drop 100).length < n := by
        rw [← hlen]
        simp only [List.length_drop]
        exact Nat.sub_lt (List.length_pos.mpr hl) (by norm_num)
      cases k with
      | zero =>
        rw [List.getElem?_cons_zero] at hget
        injection hget with hb
        subst hb
        rw [List.length_cons] at hk
        have hrest : batchesOfHundred (l.drop 100) ≠ [] := by
          intro hc
          rw [hc] at hk
          simp at hk
        have hdropne : l.drop 100 ≠ [] := by
          intro hc
          apply hrest
          rw [hc]
          simp [batchesOfHundred]
        have hlong : 100 < l.length := by
          have hp := List.length_pos.mpr hdropne
          simp only [List.length_drop] at hp
          omega
        rw [List.length_take]
        omega
      | succ k2 =>
        rw [List.getElem?_cons_succ] at hget
        rw [List.length_cons] at hk
        exact ih ((l.drop 100).length) hlt (l.drop 100) rfl k2 b hget (by omega)

set_option maxRecDepth 40000 in
/-- Counterexample for C5: the claim quantifies over every add-list, but
the function first drops identifiers that fail the validity filter of
line 287 (nonempty strings of exactly 11 characters). A 250-identifier
list containing one empty identifier is split into batches of
100, 100, 49 — not 100, 100, 50. -/
theorem C5_batching_counterexample :
    ("" :: List.replicate 249 "aaaaaaaaaaa").length = 250
    ∧ (add_tracks_to_playlist (fun _ => true) ("" :: List.replicate 249 "aaaaaaaaaaa")).map
        (fun b => b.1.length) ≠ [100, 100, 50] := by
  constructor
  · rw [List.length_cons, List.length_replicate]
  · decide

/-- C5 as amended: identifiers that pass the validity filter (nonempty
strings of exactly 11 characters) are submitted in fixed-size batches of
100 in list order: for every add-list, the attempted batches equal the
canonical 100-chunking of the valid identifiers, they concatenate in
order back to exactly the valid identifiers, every batch holds at most
100 identifiers and every batch but the last holds exactly 100; the
attempted batches are independent of the per-batch submission outcomes,
so a failure while submitting one batch never prevents the subsequent
batches from being attempted; and a 250-item list of valid identifiers
is split into batches of exactly 100, 100, 50. -/
theorem C5_batching_amended :
    (∀ (f g : List String → Bool) (video_ids : List String),
      (add_tracks_to_playlist f video_ids).map Prod.fst =
        (add_tracks_to_playlist g video_ids).map Prod.fst)
    ∧ (∀ (f : List String → Bool) (video_ids : List String),
      (add_tracks_to_playlist f video_ids).map Prod.fst =
        batchesOfHundred (validVideoIds video_ids))
    ∧ (∀ (f : List String → Bool) (video_ids : List String),
      ((add_tracks_to_playlist f video_ids).map Prod.fst).flatten =
        validVideoIds video_ids)
    ∧ (∀ (f : List String → Bool) (video_ids : List String),
      ∀ b ∈ (add_tracks_to_playlist f video_ids).map Prod.fst, b.length ≤ 100)
    ∧ (∀ (f : List String → Bool) (video_ids : List String) (k : Nat) (b : List String),
      ((add_tracks_to_playlist f video_ids).map Prod.fst)[k]? = some b →
      k + 1 < ((add_tracks_to_playlist f video_ids).map Prod.fst).length →
      b.length = 100)
    ∧ (∀ (f : List String → Bool) (video_ids : List String),
      video_ids.length = 250 →
      (∀ v ∈ video_ids, ¬ v = "" ∧ v.length = 11) →
      (add_tracks_to_playlist f video_ids).map (fun b => b.1.length) = [100, 100, 50]) := by
  have heq : ∀ (f : List String → Bool) (video_ids : List String),
      (add_tracks_to_playlist f video_ids).map Prod.fst =
        batchesOfHundred (validVideoIds video_ids) := by
    intro f video_ids
    by_cases h1 : video_ids = []
    · simp [add_tracks_to_playlist, h1, validVideoIds, batchesOfHundred]
    · by_cases h2 : validVideoIds video_ids = []
      · simp [add_tracks_to_playlist, h1, h2, batchesOfHundred]
      · simp only [add_tracks_to_playlist, if_neg h1, if_neg h2]
        rw [List.map_map]
        rw [← pyRangeStep100_slices_eq ((validVideoIds video_ids).length)
          (validVideoIds video_ids) rfl]
        exact List.map_congr_left fun a ha => rfl
  refine ⟨?_, heq, ?_, ?_, ?_, ?_⟩
  · intro f g video_ids
    rw [heq f video_ids, heq g video_ids]
  · intro f video_ids
    rw [heq f video_ids]
    exact batchesOfHundred_flatten ((validVideoIds video_ids).length) _ rfl
  · intro f video_ids b hb
    rw [heq f video_ids] at hb
    exact batchesOfHundred_le ((validVideoIds video_ids).length) _ rfl b hb
  · intro f video_ids k b hget hk
    rw [heq f video_ids] at hget hk
    exact batchesOfHundred_nonfinal ((validVideoIds video_ids).length) _ rfl k b hget hk
  · intro f video_ids hlen hval
    have hvalid : validVideoIds video_ids = video_ids := by
      refine List.filter_eq_self.mpr ?_
      intro a ha
      obtain ⟨hne, h11⟩ := hval a ha
      simp [hne, h11]
    have hne : ¬ video_ids = [] := by
      intro h
      rw [h] at hlen
      simp at hlen
    have hr : pyRangeStep100 250 = [0, 100, 200] := by decide
    simp only [add_tracks_to_playlist, hvalid, hlen, hne, if_false, hr]
    simp [List.length_take, List.length_drop, hlen]

set_option maxRecDepth 40000 in
/-- Witness for C5 as amended: 250 valid identifiers split into batches
of 100, 100, 50, and the non-final batch clause applied to the first of
those batches. -/
theorem C5_batching_amended_witness :
    (add_tracks_to_playlist (fun _ => true) (List.replicate 250 "aaaaaaaaaaa")).map
      (fun b => b.1.length) = [100, 100, 50]
    ∧ (List.replicate 100 "aaaaaaaaaaa").length = 100 :=
  ⟨C5_batching_amended.2.2.2.2.2 (fun _ => true) (List.replicate 250 "aaaaaaaaaaa")
      (by rw [List.length_replicate])
      (fun v hv => by
        have h := List.eq_of_mem_replicate hv
        subst h
        exact ⟨by decide, by decide⟩),
   C5_batching_amended.2.2.2.2.1 (fun _ => true) (List.replicate 250 "aaaaaaaaaaa") 0
      (List.replicate 100 "aaaaaaaaaaa") (by decide) (by decide)⟩

/-- C8, evaluating the cache consultation: bad JSON and a missing
`cached_at` key degrade to a cache miss (the live fetch follows), a fresh
entry is a hit, an expired entry is a miss — but an unparsable
`cached_at` timestamp makes `datetime.fromisoformat` raise `ValueError`,
which the handler of line 127 (catching only `json.JSONDecodeError` and
`KeyError`) does not catch, so the whole fetch aborts instead of
degrading to a miss: the claim describes the evident intent, the code has
a bug. -/
theorem C8_cache_corruption_behavior :
    get_spotify_playlist_cache (fun _ => none) 0 7 true
      (some (Except.ok (CachedData.mk (some "not-a-timestamp") (some "meta") (some [])))) =
      Except.error ()
    ∧ get_spotify_playlist_cache (fun _ => some 0) 1 7 true (some (Except.error ())) =
      Except.ok CacheLoad.miss
    ∧ get_spotify_playlist_cache (fun _ => some 0) 1 7 true
      (some (Except.ok (CachedData.mk none (some "meta") (some [])))) =
      Except.ok CacheLoad.miss
    ∧ get_spotify_playlist_cache (fun _ => some 0) 1 7 true
      (some (Except.ok (CachedData.mk (some "2024-01-01T00:00:00") (some "meta") (some [])))) =
      Except.ok (CacheLoad.hit "meta" [])
    ∧ get_spotify_playlist_cache (fun _ => some 0) 8 7 true
      (some (Except.ok (CachedData.mk (some "2024-01-01T00:00:00") (some "meta") (some [])))) =
      Except.ok CacheLoad.miss := by
  refine ⟨rfl, rfl, rfl, ?_, ?_⟩
  · norm_num [get_spotify_playlist_cache]
  · norm_num [get_spotify_playlist_cache]

end Spotify2Youtube
